import Mathlib

set_option autoImplicit false

/-
Verification of the snowflake-exporter collection cycle (`src/main.py`).

The embedding models the module-level startup (environment reads, the
`int(os.getenv("EXPORTER_PORT", "8000"))` parse at line 30, and the
required-variable validation at lines 33-45), the per-cycle function
`collect_metrics` (lines 62-184), and the scheduler `serve` (lines 186-191).

Database rows are inputs to a cycle: the SQL text itself runs on the server,
so each catalog entry's result is given as either a list of rows or a raised
error.  The only piece of the SQL modelled is the `warehouse_name IS NOT NULL`
predicate that two of the nine queries carry, because the claims are about it.
-/

namespace SnowflakeExporter

/-- The nine Prometheus gauges declared at module scope in `main.py`
lines 13-21, identified by metric. -/
inductive MetricId where
  | warehouseCredits
  | warehouseLoad
  | queryDuration
  | tableStorage
  | loginSuccess
  | loginFailure
  | accessEvents
  | sessionCount
  | failedQueries
deriving DecidableEq, Fintype

/-- One gauge's children: insertion-ordered association list from the
label-value tuple to the gauge value, mirroring the per-metric dict kept by
the Prometheus client (overwriting a key keeps its position, a new key is
appended). -/
abbrev Series : Type := List (List String × Rat)

/-- The registry: every metric's series.  `Gauge.clear()` empties one
metric's map; `Gauge.labels(...).set(v)` writes one key of one metric. -/
abbrev Registry : Type := MetricId → Series

/-- The registry at process start: no gauge has any child. -/
def emptyRegistry : Registry := fun _ => []

/-- One fetched result row for a catalog entry: the grouping columns that
become label values (a SQL NULL cell is `none`) followed by the numeric
value column passed to `set`. -/
structure Row where
  labels : List (Option String)
  value : Rat
deriving DecidableEq

/-- The Prometheus client converts every label value with `str`, so a
`None` label value becomes the string `"None"`. -/
def labelStr : Option String → String
  | none => "None"
  | some s => s

/-- Write one key of a series, dict-style: an existing key is overwritten in
place, a new key is appended at the end. -/
def setSeries : Series → List String → Rat → Series
  | [], k, v => [(k, v)]
  | (k2, v2) :: rest, k, v =>
    if k2 = k then (k, v) :: rest else (k2, v2) :: setSeries rest k v

/-- One entry of the query catalog in `collect_metrics`: the gauge it feeds
and whether its SQL carries a `... IS NOT NULL` filter on the grouping
column (true only for the query-duration and failed-queries queries,
lines 110 and 173). -/
structure CatalogEntry where
  metric : MetricId
  filtersNull : Bool
deriving DecidableEq

/-- The nine catalog entries in the order `collect_metrics` runs them
(lines 85-177). -/
def catalog : List CatalogEntry :=
  [⟨.warehouseCredits, false⟩,
   ⟨.warehouseLoad, false⟩,
   ⟨.queryDuration, true⟩,
   ⟨.tableStorage, false⟩,
   ⟨.loginSuccess, false⟩,
   ⟨.loginFailure, false⟩,
   ⟨.accessEvents, false⟩,
   ⟨.sessionCount, false⟩,
   ⟨.failedQueries, true⟩]

/-- The rows the server returns for an entry: when the entry's SQL filters
NULL grouping values, rows with a NULL label cell never reach the client. -/
def sqlRows (e : CatalogEntry) (rows : List Row) : List Row :=
  if e.filtersNull then rows.filter (fun r => r.labels.all (fun c => c.isSome)) else rows

/-- The `for row in cs.fetchall(): metric.labels(...).set(row[v])` loop of
one entry, acting on that metric's series. -/
def applySeries (e : CatalogEntry) (rows : List Row) (s : Series) : Series :=
  (sqlRows e rows).foldl (fun acc r => setSeries acc (r.labels.map labelStr) r.value) s

/-- One entry's loop acting on the whole registry: only its own metric is
touched. -/
def applyEntry (e : CatalogEntry) (rows : List Row) (reg : Registry) : Registry :=
  fun m => if m = e.metric then applySeries e rows (reg m) else reg m

/-- Run catalog entries in order against fetched results; the first entry
whose execute/fetch raises stops the run (the exception unwinds to the
`except` handler).  Returns the registry and whether every entry succeeded. -/
def runCatalog : List CatalogEntry → (MetricId → Except Unit (List Row)) → Registry → Registry × Bool
  | [], _, reg => (reg, true)
  | e :: rest, fetch, reg =>
    match fetch e.metric with
    | .error _ => (reg, false)
    | .ok rows => runCatalog rest fetch (applyEntry e rows reg)

/-- `Gauge.clear()` for one metric. -/
def clearMetric (m : MetricId) (reg : Registry) : Registry :=
  fun m2 => if m2 = m then [] else reg m2

/-- The block of nine `clear()` calls at the top of the `try` body
(lines 70-78), in source order. -/
def clearAll (reg : Registry) : Registry :=
  clearMetric .failedQueries (clearMetric .sessionCount (clearMetric .accessEvents
    (clearMetric .loginFailure (clearMetric .loginSuccess (clearMetric .tableStorage
      (clearMetric .queryDuration (clearMetric .warehouseLoad
        (clearMetric .warehouseCredits reg))))))))

/-- Everything about one cycle that the outside world decides: whether the
connection attempt succeeds, whether the two `USE` statements succeed, each
catalog query's outcome, and whether closing the cursor and the connection
succeed. -/
structure CycleInput where
  connOk : Bool
  useDbOk : Bool
  useSchemaOk : Bool
  fetch : MetricId → Except Unit (List Row)
  csCloseOk : Bool
  connCloseOk : Bool

/-- The ways the body of a cycle ends, as logged by the code: skipped
(connection failure, early `return`), committed (the success log line), or
failed (the `except` handler ran). -/
inductive Outcome where
  | skipped
  | committed
  | failed
deriving DecidableEq

/-- Observable result of one call to `collect_metrics`: the registry left
behind, how the body ended, which of the two `close()` calls completed, and
whether an exception escaped the call (only a `close()` failure can, since
the `try` body's handler catches everything else). -/
structure CycleResult where
  registry : Registry
  outcome : Outcome
  csClosed : Bool
  connClosed : Bool
  uncaught : Bool

/-- The `try` body of `collect_metrics` (lines 69-179): clear all nine
gauges, run the two `USE` statements, then the nine queries in order.  Any
raise lands in the `except` handler, so the body ends failed with whatever
registry state was reached. -/
def collectBody (inp : CycleInput) (reg : Registry) : Registry × Outcome :=
  let cleared := clearAll reg
  if inp.useDbOk = false then (cleared, .failed)
  else if inp.useSchemaOk = false then (cleared, .failed)
  else
    match runCatalog catalog inp.fetch cleared with
    | (r, true) => (r, .committed)
    | (r, false) => (r, .failed)

/-- Lines 47-60: a connection attempt; every failure is caught and turned
into `None`. -/
def connect_to_snowflake (ok : Bool) : Option Unit :=
  if ok then some () else none

/-- Lines 62-184.  On `None` from the connect the function returns at once.
Otherwise the `try` body runs and the `finally` block executes
`cs.close(); conn.close()` with no handler of its own: if the cursor close
raises, the connection close never runs and the exception escapes; if the
connection close raises, that exception escapes. -/
def collect_metrics (inp : CycleInput) (reg : Registry) : CycleResult :=
  match connect_to_snowflake inp.connOk with
  | none =>
    { registry := reg, outcome := .skipped, csClosed := false,
      connClosed := false, uncaught := false }
  | some _ =>
    let body := collectBody inp reg
    { registry := body.1,
      outcome := body.2,
      csClosed := inp.csCloseOk,
      connClosed := inp.csCloseOk && inp.connCloseOk,
      uncaught := !inp.csCloseOk || (inp.csCloseOk && !inp.connCloseOk) }

/-- The environment the process is started with: `os.getenv` yields `none`
for an unset variable. -/
structure Env where
  snowflake_username : Option String
  snowflake_password : Option String
  snowflake_account : Option String
  snowflake_warehouse : Option String
  snowflake_database : Option String
  snowflake_schema : Option String
  exporter_port : Option String
deriving DecidableEq

/-- Python truth test `not v` on an `os.getenv` result: `None` and the
empty string are both falsy. -/
def falsy : Option String → Bool
  | none => true
  | some s => s = ""

/-- The `required_env` dict of lines 33-40, in source order. -/
def required_env (e : Env) : List (String × Option String) :=
  [("SNOWFLAKE_USERNAME", e.snowflake_username),
   ("SNOWFLAKE_PASSWORD", e.snowflake_password),
   ("SNOWFLAKE_ACCOUNT", e.snowflake_account),
   ("SNOWFLAKE_WAREHOUSE", e.snowflake_warehouse),
   ("SNOWFLAKE_DATABASE", e.snowflake_database),
   ("SNOWFLAKE_SCHEMA", e.snowflake_schema)]

/-- Line 42: `[k for k, v in required_env.items() if not v]`. -/
def missing (e : Env) : List String :=
  ((required_env e).filter (fun kv => falsy kv.2)).map (fun kv => kv.1)

/-- Whitespace accepted around the number by Python's `int`. -/
def isPySpace (c : Char) : Bool :=
  c = ' ' || c = '\t' || c = '\n' || c = '\r' || c = Char.ofNat 11 || c = Char.ofNat 12

/-- Strip whitespace from both ends, as `int` does before parsing. -/
def pyStrip (l : List Char) : List Char :=
  ((l.dropWhile isPySpace).reverse.dropWhile isPySpace).reverse

/-- After a leading digit, the rest of a Python integer literal body:
digits, with single underscores allowed only between digits. -/
def digitsRest : List Char → Bool
  | [] => true
  | '_' :: c :: cs => c.isDigit && digitsRest cs
  | c :: cs => c.isDigit && digitsRest cs

/-- A nonempty digit string with Python's underscore grouping rule. -/
def validIntDigits : List Char → Bool
  | [] => false
  | c :: cs => c.isDigit && digitsRest cs

/-- Decimal value of a digit list. -/
def digitsVal (l : List Char) : Nat :=
  l.foldl (fun acc c => acc * 10 + (c.toNat - Char.toNat '0')) 0

/-- Modelled behavior of the built-in `int(str)` used at line 30: strip
whitespace, accept an optional sign followed by decimal digits (with
Python's underscore grouping); anything else raises `ValueError`
(`none` here). -/
def pyInt (s : String) : Option Int :=
  match pyStrip s.toList with
  | '+' :: t =>
    if validIntDigits t then some (Int.ofNat (digitsVal (t.filter (fun c => c ≠ '_')))) else none
  | '-' :: t =>
    if validIntDigits t then some (-Int.ofNat (digitsVal (t.filter (fun c => c ≠ '_')))) else none
  | t =>
    if validIntDigits t then some (Int.ofNat (digitsVal (t.filter (fun c => c ≠ '_')))) else none

/-- How module-level startup can end: an uncaught `ValueError` from the
port parse at line 30, the `sys.exit(1)` of line 45, or reaching `serve`
with the parsed port. -/
inductive StartupResult where
  | portParseError
  | exitMissing (names : List String)
  | started (port : Int)
deriving DecidableEq

/-- Module-level startup in source order: line 30 parses
`os.getenv("EXPORTER_PORT", "8000")` first (an unset variable defaults to
the string `"8000"`); only then do lines 42-45 check the required
variables. -/
def startup (e : Env) : StartupResult :=
  match pyInt ((e.exporter_port).getD "8000") with
  | none => .portParseError
  | some p => if missing e = [] then .started p else .exitMissing (missing e)

/-- The `serve` loop (lines 186-191) as a timed schedule.  `sched ... n` is
`some (s, r)` when cycle `n` begins, at time `s` with registry `r`; the
cycle takes `dur n` time units and is followed by `time.sleep 60`.  The
loop has no handler, so a cycle whose exception escapes `collect_metrics`
kills the process: no later cycle begins (`none`). -/
def sched (t0 : Nat) (dur : Nat → Nat) (inputs : Nat → CycleInput) (reg0 : Registry) :
    Nat → Option (Nat × Registry)
  | 0 => some (t0, reg0)
  | n + 1 =>
    match sched t0 dur inputs reg0 n with
    | none => none
    | some (s, r) =>
      let res := collect_metrics (inputs n) r
      if res.uncaught then none else some (s + dur n + 60, res.registry)

/-! ### Concrete cycle inputs used to exercise the model -/

/-- A cycle input in which everything succeeds and every query returns the
given results. -/
def okInput (fetch : MetricId → Except Unit (List Row)) : CycleInput :=
  { connOk := true, useDbOk := true, useSchemaOk := true,
    fetch := fetch, csCloseOk := true, connCloseOk := true }

/-- A registry holding one failed-queries sample, as a previous cycle
would leave it. -/
def c1reg : Registry := fun m => if m = .failedQueries then [(["WH1"], 3)] else []

/-- A cycle in which the very first catalog query (warehouse credits)
raises and every other query would have succeeded. -/
def c1inp : CycleInput :=
  okInput (fun m => match m with
    | .warehouseCredits => .error ()
    | _ => .ok [])

/-- A registry holding one session-count sample from an earlier cycle. -/
def c1wreg : Registry := fun m => if m = .sessionCount then [(["carol"], 1)] else []

/-- A cycle whose first entry returns one row and whose second entry
(warehouse load) raises. -/
def c1winp : CycleInput :=
  okInput (fun m => match m with
    | .warehouseCredits => .ok [⟨[some "WH2"], 7⟩]
    | .warehouseLoad => .error ()
    | _ => .ok [])

/-- A cycle whose warehouse-credits query returns a row whose grouping
column is NULL. -/
def c2inp : CycleInput :=
  okInput (fun m => match m with
    | .warehouseCredits => .ok [⟨[none], 5⟩]
    | _ => .ok [])

/-- A cycle whose connection attempt fails. -/
def c3inp : CycleInput :=
  { connOk := false, useDbOk := true, useSchemaOk := true,
    fetch := fun _ => .ok [], csCloseOk := true, connCloseOk := true }

/-- A registry holding one warehouse-credits sample. -/
def c3reg : Registry := fun m => if m = .warehouseCredits then [(["WH_A"], 7)] else []

/-- The rational 12.5, the credits value of the spec's scenario. -/
def c4half : Rat := ⟨25, 2, by norm_num, by norm_num⟩

/-- Cycle A of the spec's scenario: warehouse `WH_A` reports 12.5 credits. -/
def c4inpA : CycleInput :=
  okInput (fun m => match m with
    | .warehouseCredits => .ok [⟨[some "WH_A"], c4half⟩]
    | _ => .ok [])

/-- Cycle B of the spec's scenario: every query returns no rows. -/
def c4inpB : CycleInput := okInput (fun _ => .ok [])

/-- A fully successful cycle body whose cursor close raises. -/
def c5inp : CycleInput :=
  { connOk := true, useDbOk := true, useSchemaOk := true,
    fetch := fun _ => .ok [], csCloseOk := false, connCloseOk := true }

/-- An environment missing its username, with the port unset. -/
def c6envM : Env :=
  { snowflake_username := none, snowflake_password := some "pw",
    snowflake_account := some "ac", snowflake_warehouse := some "wh",
    snowflake_database := some "db", snowflake_schema := some "sc",
    exporter_port := none }

/-- A complete environment with the port unset. -/
def c6envF : Env :=
  { snowflake_username := some "u", snowflake_password := some "pw",
    snowflake_account := some "ac", snowflake_warehouse := some "wh",
    snowflake_database := some "db", snowflake_schema := some "sc",
    exporter_port := none }

/-- An all-succeeding cycle input with no rows, for the scheduler check. -/
def c7inp : CycleInput := okInput (fun _ => .ok [])

/-- A registry holding a stale session-count sample. -/
def c8wreg : Registry := fun m => if m = .sessionCount then [(["olduser"], 2)] else []

/-- A cycle reporting the spec's alice/bob login-success counts. -/
def c8winp : CycleInput :=
  okInput (fun m => match m with
    | .loginSuccess => .ok [⟨[some "alice"], 3⟩, ⟨[some "bob"], 1⟩]
    | _ => .ok [])

/-- An environment whose schema variable is set to the empty string. -/
def c9env : Env :=
  { snowflake_username := some "u", snowflake_password := some "pw",
    snowflake_account := some "ac", snowflake_warehouse := some "wh",
    snowflake_database := some "db", snowflake_schema := some "",
    exporter_port := none }

/-- An environment with every required variable unset and a non-numeric
port value. -/
def c10envA : Env :=
  { snowflake_username := none, snowflake_password := none,
    snowflake_account := none, snowflake_warehouse := none,
    snowflake_database := none, snowflake_schema := none,
    exporter_port := some "http" }

/-- A complete environment with the port unset. -/
def c10envB : Env :=
  { snowflake_username := some "u", snowflake_password := some "pw",
    snowflake_account := some "ac", snowflake_warehouse := some "wh",
    snowflake_database := some "db", snowflake_schema := some "sc",
    exporter_port := none }

/-- Whether an entry's execute/fetch succeeded. -/
def fetchOk : Except Unit (List Row) → Bool
  | .ok _ => true
  | .error _ => false

/-- The rows of a successful fetch (empty for a raised one). -/
def okRows : Except Unit (List Row) → List Row
  | .ok rows => rows
  | .error _ => []

/-! ### Helper lemmas about the cycle body -/

theorem clearAll_eq (reg : Registry) : clearAll reg = emptyRegistry := by
  funext m
  cases m <;> rfl

theorem applyEntry_ne (e : CatalogEntry) (rows : List Row) (reg : Registry) (m : MetricId)
    (h : m ≠ e.metric) : applyEntry e rows reg m = reg m := by
  simp [applyEntry, h]

theorem runCatalog_fst_notMem (es : List CatalogEntry) (fetch : MetricId → Except Unit (List Row))
    (reg : Registry) (m : MetricId) (h : m ∉ es.map (fun x => x.metric)) :
    (runCatalog es fetch reg).1 m = reg m := by
  induction es generalizing reg with
  | nil => rfl
  | cons e rest ih =>
    simp only [List.map_cons, List.mem_cons, not_or] at h
    cases hf : fetch e.metric with
    | error u => simp [runCatalog, hf]
    | ok rows =>
      simp only [runCatalog, hf]
      rw [ih (applyEntry e rows reg) h.2, applyEntry_ne e rows reg m h.1]

theorem runCatalog_fst_mem (pre : List CatalogEntry) (e : CatalogEntry) (post : List CatalogEntry)
    (fetch : MetricId → Except Unit (List Row)) (reg : Registry)
    (hnd : ((pre ++ e :: post).map (fun x => x.metric)).Nodup)
    (hok : ∀ p ∈ pre, fetchOk (fetch p.metric) = true)
    (he : fetchOk (fetch e.metric) = true) :
    (runCatalog (pre ++ e :: post) fetch reg).1 e.metric
      = applySeries e (okRows (fetch e.metric)) (reg e.metric) := by
  induction pre generalizing reg with
  | nil =>
    cases hf : fetch e.metric with
    | error u => rw [hf] at he; exact absurd he (by simp [fetchOk])
    | ok rows =>
      simp only [List.nil_append, runCatalog, hf]
      have hmem : e.metric ∉ post.map (fun x => x.metric) := by
        simp only [List.nil_append, List.map_cons, List.nodup_cons] at hnd
        exact hnd.1
      rw [runCatalog_fst_notMem post fetch _ e.metric hmem]
      simp [applyEntry, hf, okRows]
  | cons p rest ih =>
    have hp : fetchOk (fetch p.metric) = true := hok p (by simp)
    cases hf : fetch p.metric with
    | error u => rw [hf] at hp; exact absurd hp (by simp [fetchOk])
    | ok rows =>
      simp only [List.cons_append, runCatalog, hf, List.append_eq]
      have hnd2 : ((rest ++ e :: post).map (fun x => x.metric)).Nodup := by
        simp only [List.cons_append, List.map_cons, List.nodup_cons] at hnd
        exact hnd.2
      have hne : e.metric ≠ p.metric := by
        simp only [List.cons_append, List.map_cons, List.nodup_cons] at hnd
        intro hEq
        exact hnd.1 (by rw [← hEq]; simp)
      rw [ih _ hnd2 (fun q hq => hok q (by simp [hq])),
        applyEntry_ne p rows reg e.metric hne]

theorem runCatalog_stop (pre : List CatalogEntry) (e : CatalogEntry) (post : List CatalogEntry)
    (fetch : MetricId → Except Unit (List Row)) (reg : Registry)
    (hok : ∀ p ∈ pre, fetchOk (fetch p.metric) = true)
    (he : fetchOk (fetch e.metric) = false) :
    runCatalog (pre ++ e :: post) fetch reg = ((runCatalog pre fetch reg).1, false) := by
  induction pre generalizing reg with
  | nil =>
    cases hf : fetch e.metric with
    | error u => simp [runCatalog, hf]
    | ok rows => rw [hf] at he; exact absurd he (by simp [fetchOk])
  | cons p rest ih =>
    have hp : fetchOk (fetch p.metric) = true := hok p (by simp)
    cases hf : fetch p.metric with
    | error u => rw [hf] at hp; exact absurd hp (by simp [fetchOk])
    | ok rows =>
      simp only [List.cons_append, runCatalog, hf, List.append_eq]
      exact ih _ (fun q hq => hok q (by simp [hq]))

theorem committed_flags (inp : CycleInput) (reg : Registry)
    (h : (collect_metrics inp reg).outcome = .committed) :
    inp.connOk = true ∧ inp.useDbOk = true ∧ inp.useSchemaOk = true := by
  cases hc : inp.connOk with
  | false => simp [collect_metrics, connect_to_snowflake, hc] at h
  | true =>
    cases hdb : inp.useDbOk with
    | false => simp [collect_metrics, connect_to_snowflake, collectBody, hc, hdb] at h
    | true =>
      cases hs : inp.useSchemaOk with
      | false => simp [collect_metrics, connect_to_snowflake, collectBody, hc, hdb, hs] at h
      | true => exact ⟨rfl, rfl, rfl⟩

theorem registry_ctx_ok (inp : CycleInput) (reg : Registry) (hc : inp.connOk = true)
    (hdb : inp.useDbOk = true) (hs : inp.useSchemaOk = true) :
    (collect_metrics inp reg).registry = (runCatalog catalog inp.fetch emptyRegistry).1 := by
  simp only [collect_metrics, connect_to_snowflake, hc, if_true, collectBody, hdb, hs,
    clearAll_eq]
  rcases hr : runCatalog catalog inp.fetch emptyRegistry with ⟨r, b⟩
  cases b <;> simp

/-! ### Claim theorems -/

/-- C2: the code does not uphold the claim that a NULL grouping column never
produces a sample.  Only the query-duration and failed-queries SQL filter
NULL warehouses; here the warehouse-credits query returns a NULL-grouped
row and the cycle commits a sample whose label value is the string "None"
(the client's `str(None)`). -/
theorem null_group_row_emits_sample :
    (collect_metrics c2inp emptyRegistry).outcome = .committed
    ∧ (collect_metrics c2inp emptyRegistry).registry .warehouseCredits = [(["None"], 5)] := by
  decide

/-- C3: when connection acquisition fails, `collect_metrics` returns at
once: the registry after the cycle is the registry before it and no gauge
is touched (the cycle is skipped). -/
theorem skip_invariant (inp : CycleInput) (reg : Registry) (h : inp.connOk = false) :
    (collect_metrics inp reg).registry = reg
    ∧ (collect_metrics inp reg).outcome = .skipped := by
  simp [collect_metrics, connect_to_snowflake, h]

/-- Witness for C3 at a concrete failed connection and nonempty registry. -/
theorem skip_invariant_check :
    (collect_metrics c3inp c3reg).registry = c3reg
    ∧ (collect_metrics c3inp c3reg).outcome = .skipped :=
  skip_invariant c3inp c3reg rfl

/-- C4: after a committed cycle the registry equals the registry built from
this cycle's fetched rows alone, starting from empty — every metric holds
exactly this cycle's rows and no label tuple of an earlier cycle survives
unless refetched. -/
theorem committed_registry_reflects_cycle_rows (inp : CycleInput) (reg : Registry)
    (h : (collect_metrics inp reg).outcome = .committed) :
    (collect_metrics inp reg).registry = (runCatalog catalog inp.fetch emptyRegistry).1 := by
  obtain ⟨hc, hdb, hs⟩ := committed_flags inp reg h
  exact registry_ctx_ok inp reg hc hdb hs

/-- Witness for C4: the spec's scenario — `WH_A` reports 12.5 credits in
cycle A, no rows in cycle B; after cycle B the `WH_A` sample is gone. -/
theorem committed_registry_reflects_cycle_rows_check :
    (collect_metrics c4inpA emptyRegistry).registry .warehouseCredits = [(["WH_A"], c4half)]
    ∧ (collect_metrics c4inpB (collect_metrics c4inpA emptyRegistry).registry).registry
        = (runCatalog catalog c4inpB.fetch emptyRegistry).1
    ∧ (runCatalog catalog c4inpB.fetch emptyRegistry).1 .warehouseCredits = [] :=
  ⟨by decide,
   committed_registry_reflects_cycle_rows c4inpB
     (collect_metrics c4inpA emptyRegistry).registry (by decide),
   by decide⟩

/-- C5 counterexample: the `finally` block runs `cs.close(); conn.close()`
with no handler, so on a cycle whose body committed but whose cursor close
raises, the exception escapes `collect_metrics` and the connection is never
closed — refuting "close failure is logged, not re-raised" and "the session
is closed on every path". -/
theorem close_failure_escapes_cycle :
    (collect_metrics c5inp emptyRegistry).outcome = .committed
    ∧ (collect_metrics c5inp emptyRegistry).uncaught = true
    ∧ (collect_metrics c5inp emptyRegistry).connClosed = false := by
  decide

/-- C5 amended: connection, context and query errors never escape
`collect_metrics`; an exception escapes the cycle exactly when the
connection was acquired and one of the two closes raises.  The cursor close
completes iff it succeeds, and the connection close runs (and completes)
only after a successful cursor close. -/
theorem close_path_behavior (inp : CycleInput) (reg : Registry) :
    (collect_metrics inp reg).uncaught = (inp.connOk && (!inp.csCloseOk || !inp.connCloseOk))
    ∧ (collect_metrics inp reg).csClosed = (inp.connOk && inp.csCloseOk)
    ∧ (collect_metrics inp reg).connClosed
        = (inp.connOk && inp.csCloseOk && inp.connCloseOk) := by
  rcases inp with ⟨c, db, sc, f, cs, cc⟩
  cases c <;> cases cs <;> cases cc <;>
    simp [collect_metrics, connect_to_snowflake]

/-- C8: two consecutive cycles on identical underlying data, the first of
which commits, leave the registry exactly where the first left it. -/
theorem cycle_idempotent_on_same_data (inp : CycleInput) (reg : Registry)
    (h : (collect_metrics inp reg).outcome = .committed) :
    (collect_metrics inp (collect_metrics inp reg).registry).registry
      = (collect_metrics inp reg).registry := by
  obtain ⟨hc, hdb, hs⟩ := committed_flags inp reg h
  rw [registry_ctx_ok inp _ hc hdb hs, registry_ctx_ok inp reg hc hdb hs]

/-- Witness for C8 on the spec's alice/bob login data, starting from a
registry holding a stale sample. -/
theorem cycle_idempotent_on_same_data_check :
    (collect_metrics c8winp (collect_metrics c8winp c8wreg).registry).registry
      = (collect_metrics c8winp c8wreg).registry :=
  cycle_idempotent_on_same_data c8winp c8wreg (by decide)

/-- C6: startup never reaches `serve` when the required-variable list is
nonempty (the process exits at line 45, before the scheduler), and with a
complete required set the validation passes and startup reaches `serve`
with the parsed port; `collect_metrics` takes no configuration input, so
no per-cycle configuration check exists. -/
theorem config_fail_fast (e : Env) :
    (missing e ≠ [] → ∀ p, startup e ≠ .started p)
    ∧ (missing e = [] →
        ∀ p, pyInt ((e.exporter_port).getD "8000") = some p → startup e = .started p) := by
  constructor
  · intro hm p
    unfold startup
    cases hp : pyInt ((e.exporter_port).getD "8000") with
    | none => simp
    | some q => simp [hm]
  · intro hm p hp
    unfold startup
    rw [hp]
    simp [hm]

/-- Witness for C6: a missing username blocks startup; the complete
environment starts with the default port. -/
theorem config_fail_fast_check :
    startup c6envM ≠ .started 8000 ∧ startup c6envF = .started 8000 :=
  ⟨(config_fail_fast c6envM).1 (by decide) 8000,
   (config_fail_fast c6envF).2 (by decide) 8000 (by decide)⟩

/-- C9: a required variable set to the empty string is falsy for the
line-42 comprehension, so it is reported missing and startup exits before
the scheduler, exactly like an unset variable. -/
theorem empty_string_env_treated_missing (e : Env) (k : String)
    (hk : (k, some "") ∈ required_env e) :
    k ∈ missing e ∧ ∀ p, startup e ≠ .started p := by
  have hmem : k ∈ missing e :=
    List.mem_map.mpr ⟨(k, some ""), List.mem_filter.mpr ⟨hk, rfl⟩, rfl⟩
  refine ⟨hmem, fun p => ?_⟩
  have hne : missing e ≠ [] := List.ne_nil_of_mem hmem
  unfold startup
  cases hp : pyInt ((e.exporter_port).getD "8000") with
  | none => simp
  | some q => simp [hne]

/-- Witness for C9: an empty schema string is reported missing and blocks
startup. -/
theorem empty_string_env_treated_missing_check :
    "SNOWFLAKE_SCHEMA" ∈ missing c9env ∧ startup c9env ≠ .started 8000 :=
  ⟨(empty_string_env_treated_missing c9env "SNOWFLAKE_SCHEMA" (by decide)).1,
   (empty_string_env_treated_missing c9env "SNOWFLAKE_SCHEMA" (by decide)).2 8000⟩

/-- C10: the port parse at line 30 runs before the required-variable
validation: a set but unparsable EXPORTER_PORT ends startup with the
uncaught ValueError no matter what the required variables hold, while an
unset EXPORTER_PORT never produces a parse error and defaults the port
to 8000. -/
theorem port_parse_precedes_validation (e : Env) :
    (∀ s, e.exporter_port = some s → pyInt s = none → startup e = .portParseError)
    ∧ (e.exporter_port = none →
        startup e ≠ .portParseError ∧ (missing e = [] → startup e = .started 8000)) := by
  constructor
  · intro s hs hp
    unfold startup
    rw [hs]
    simp [Option.getD, hp]
  · intro hp
    have h8 : startup e
        = if missing e = [] then .started 8000 else .exitMissing (missing e) := by
      unfold startup
      rw [hp]
      have hv : pyInt ((none : Option String).getD "8000") = some 8000 := by decide
      rw [hv]
    constructor
    · rw [h8]
      split <;> simp
    · intro hm
      rw [h8, if_pos hm]

/-- Witness for C10: a non-numeric port kills startup even though every
required variable is also missing (the parse precedes the validation), and
an unset port defaults to 8000. -/
theorem port_parse_precedes_validation_check :
    missing c10envA ≠ [] ∧ startup c10envA = .portParseError
    ∧ startup c10envB = .started 8000 :=
  ⟨by decide,
   (port_parse_precedes_validation c10envA).1 "http" rfl (by decide),
   ((port_parse_precedes_validation c10envB).2 rfl).2 (by decide)⟩

/-- One unfolding step of the serve loop at a cycle that does not raise. -/
theorem sched_succ (t0 : Nat) (dur : Nat → Nat) (inputs : Nat → CycleInput)
    (reg0 : Registry) (n s : Nat) (r : Registry)
    (h : sched t0 dur inputs reg0 n = some (s, r))
    (hu : (collect_metrics (inputs n) r).uncaught = false) :
    sched t0 dur inputs reg0 (n + 1)
      = some (s + dur n + 60, (collect_metrics (inputs n) r).registry) := by
  simp [sched, h, hu]

/-- C7: as long as no cycle lets an exception escape `collect_metrics`
(committed, failed and skipped cycles do not), the serve loop runs forever:
every cycle n begins, runs exactly one `collect_metrics` call, and the next
cycle begins exactly 60 time units after this one ends — end-to-start
spacing, so consecutive cycles never overlap and none is skipped or
queued. -/
theorem scheduler_runs_every_cycle (t0 : Nat) (dur : Nat → Nat)
    (inputs : Nat → CycleInput) (reg0 : Registry)
    (hnc : ∀ n r, (collect_metrics (inputs n) r).uncaught = false) :
    ∀ n, ∃ s r, sched t0 dur inputs reg0 n = some (s, r)
      ∧ sched t0 dur inputs reg0 (n + 1)
          = some (s + dur n + 60, (collect_metrics (inputs n) r).registry)
      ∧ s + dur n < s + dur n + 60 := by
  intro n
  induction n with
  | zero =>
    exact ⟨t0, reg0, rfl, sched_succ t0 dur inputs reg0 0 t0 reg0 rfl (hnc 0 reg0), by omega⟩
  | succ n ih =>
    obtain ⟨s, r, h1, h2, h3⟩ := ih
    exact ⟨s + dur n + 60, (collect_metrics (inputs n) r).registry, h2,
      sched_succ t0 dur inputs reg0 (n + 1) _ _ h2
        (hnc (n + 1) ((collect_metrics (inputs n) r).registry)),
      by omega⟩

/-- Witness for C7 at three concrete iterations of an all-succeeding
schedule. -/
theorem scheduler_runs_every_cycle_check :
    ∃ s r, sched 0 (fun _ => 5) (fun _ => c7inp) emptyRegistry 2 = some (s, r)
      ∧ sched 0 (fun _ => 5) (fun _ => c7inp) emptyRegistry 3
          = some (s + 5 + 60, (collect_metrics c7inp r).registry)
      ∧ s + 5 < s + 5 + 60 :=
  scheduler_runs_every_cycle 0 (fun _ => 5) (fun _ => c7inp) emptyRegistry
    (fun _ _ => rfl) 2

/-- C1 counterexample: all nine `clear()` calls run before any query, so
when the first catalog entry raises, a metric from entry k onward that was
populated in the previous cycle (here failed-queries, holding `(WH1, 3)`)
does not retain its value — the cycle leaves it empty. -/
theorem failed_entry_clears_pending_metrics :
    (collect_metrics c1inp c1reg).outcome = .failed
    ∧ c1reg .failedQueries = [(["WH1"], 3)]
    ∧ (collect_metrics c1inp c1reg).registry .failedQueries = [] := by
  decide

/-- C1 amended: when catalog entry k raises (and the connection and both
`USE` statements succeeded), metrics of entries before k hold exactly this
cycle's rows, while the failing entry's metric and every later entry's
metric are empty — not the previous cycle's values, because the cycle
cleared all nine gauges before its first query. -/
theorem partial_failure_state (inp : CycleInput) (reg : Registry)
    (pre post : List CatalogEntry) (e : CatalogEntry)
    (hcat : catalog = pre ++ e :: post)
    (hc : inp.connOk = true) (hdb : inp.useDbOk = true) (hs : inp.useSchemaOk = true)
    (hok : ∀ p ∈ pre, fetchOk (inp.fetch p.metric) = true)
    (he : fetchOk (inp.fetch e.metric) = false) :
    (∀ p ∈ pre, (collect_metrics inp reg).registry p.metric
        = applySeries p (okRows (inp.fetch p.metric)) [])
    ∧ (collect_metrics inp reg).registry e.metric = []
    ∧ ∀ p ∈ post, (collect_metrics inp reg).registry p.metric = [] := by
  have hreg : (collect_metrics inp reg).registry
      = (runCatalog catalog inp.fetch emptyRegistry).1 :=
    registry_ctx_ok inp reg hc hdb hs
  have hnd : ((pre ++ e :: post).map (fun x => x.metric)).Nodup := by
    rw [← hcat]; decide
  have hnd' : ((pre.map (fun x => x.metric))
      ++ ((e :: post).map (fun x => x.metric))).Nodup := by
    rw [← List.map_append]; exact hnd
  obtain ⟨hnd1, hnd2, hdisj⟩ := List.nodup_append.mp hnd'
  have hfst : (runCatalog catalog inp.fetch emptyRegistry).1
      = (runCatalog pre inp.fetch emptyRegistry).1 := by
    rw [hcat, runCatalog_stop pre e post inp.fetch emptyRegistry hok he]
  refine ⟨?_, ?_, ?_⟩
  · intro p hp
    obtain ⟨l1, l2, hp12⟩ := List.append_of_mem hp
    have hndp : ((l1 ++ p :: l2).map (fun x => x.metric)).Nodup := by
      rw [← hp12]; exact hnd1
    have hokl : ∀ q ∈ l1, fetchOk (inp.fetch q.metric) = true := by
      intro q hq
      exact hok q (by rw [hp12]; exact List.mem_append_left _ hq)
    rw [hreg, hfst, hp12,
      runCatalog_fst_mem l1 p l2 inp.fetch emptyRegistry hndp hokl (hok p hp)]
    rfl
  · have hnm : e.metric ∉ pre.map (fun x => x.metric) := by
      intro hmem
      exact hdisj hmem (by simp)
    rw [hreg, hfst, runCatalog_fst_notMem pre inp.fetch emptyRegistry e.metric hnm]
    rfl
  · intro p hp
    have hnm : p.metric ∉ pre.map (fun x => x.metric) := by
      intro hmem
      refine hdisj hmem ?_
      exact List.mem_map.mpr ⟨p, by simp [hp], rfl⟩
    rw [hreg, hfst, runCatalog_fst_notMem pre inp.fetch emptyRegistry p.metric hnm]
    rfl

/-- Witness for C1 amended: entry 2 (warehouse load) raises after entry 1
returned `(WH2, 7)`; afterwards the credits gauge holds this cycle's row,
the load gauge is empty, and the session-count gauge — populated before the
cycle — is empty too. -/
theorem partial_failure_state_check :
    ((collect_metrics c1winp c1wreg).registry .warehouseCredits
        = applySeries ⟨.warehouseCredits, false⟩
            (okRows (c1winp.fetch .warehouseCredits)) [])
    ∧ (collect_metrics c1winp c1wreg).registry .warehouseLoad = []
    ∧ (collect_metrics c1winp c1wreg).registry .sessionCount = []
    ∧ c1wreg .sessionCount = [(["carol"], 1)] :=
  have h := partial_failure_state c1winp c1wreg
    [⟨.warehouseCredits, false⟩] [⟨.queryDuration, true⟩, ⟨.tableStorage, false⟩,
      ⟨.loginSuccess, false⟩, ⟨.loginFailure, false⟩, ⟨.accessEvents, false⟩,
      ⟨.sessionCount, false⟩, ⟨.failedQueries, true⟩] ⟨.warehouseLoad, false⟩
    rfl rfl rfl rfl (by decide) rfl
  ⟨h.1 ⟨.warehouseCredits, false⟩ (by decide), h.2.1,
   h.2.2 ⟨.sessionCount, false⟩ (by decide), by decide⟩

end SnowflakeExporter
